import Mathlib

/-!
Verification development for the Multilingual Communication Assistant
(`main.py`, `gui_app.py`, `voice_assistant.py`, `gemini_client.py`).

The Python code is shallowly embedded: external services (translation,
inference, text-to-speech, audio playback) are oracles passed in as an
environment whose results are `Except` values (an `.error` models the
Python call raising an exception, an `.ok` its normal return).  GUI side
effects are recorded explicitly: chat-display entries as `Message` lists,
dialog boxes as `Option` fields, console `print` calls as a `consoleLog`
list.  Reads of the shared mutable profile lists `self.input_language` /
`self.output_language` are modelled by read schedules `Nat → List String`
indexed by the read point inside a turn, so that a profile update racing
with an in-flight turn is expressible.
-/

namespace MCA

/-- Message kinds of `add_message` (`gui_app.py` / `voice_assistant.py`). -/
inductive MsgType where
  | user
  | assistant
  | error
  | system
  | clear
deriving DecidableEq, Repr

/-- One chat-display entry produced by `add_message`. -/
structure Message where
  kind : MsgType
  text : String
deriving DecidableEq, Repr

/-- One invocation of `GoogleTranslator(source=..., target=...).translate(text)`. -/
structure TranslateCall where
  text : String
  source : String
  target : String
deriving DecidableEq, Repr

/-- Python `str.strip()`: drop leading and trailing whitespace.  Defined
on the character list so that it evaluates by structural recursion. -/
def pyStrip (s : String) : String :=
  ⟨((s.data.dropWhile Char.isWhitespace).reverse.dropWhile
      Char.isWhitespace).reverse⟩

/-- Python `str.lower()`, character by character. -/
def pyLower (s : String) : String :=
  ⟨s.data.map Char.toLower⟩

/-- `GeminiClient.chat_with_gemini` (`gemini_client.py` lines 21-36).
`outcome` is the result of `self.model.generate_content(prompt)` together
with the `.text` access: `.ok t` models a normal return with text `t`,
`.error e` models the call raising.  Returns the reply string and the
console lines printed. -/
def chat_with_gemini (outcome : Except String String) : String × List String :=
  match outcome with
  | Except.ok t => (pyStrip t, [])
  | Except.error e =>
      ("I'm sorry, I couldn't process that request.",
       ["Error generating response: " ++ e])

/-- `GeminiClient.text_to_speech` (`gemini_client.py` lines 38-61).
`gtts text lang` is the outcome of building and saving the gTTS audio:
`.ok filename` models success, `.error e` the body raising.  Returns the
filename (or `none`) and the console lines printed. -/
def text_to_speech (gtts : String → String → Except String String)
    (text lang : String) : Option String × List String :=
  match gtts text lang with
  | Except.ok filename => (some filename, [])
  | Except.error e => (none, ["Error generating speech: " ++ e])

/-- Oracles for the external services used by one turn of
`MultilingualGUI.process_text_message`. -/
structure TurnEnv where
  /-- `GoogleTranslator(source='auto', target='en').translate txt`. -/
  translateToEn : String → Except String String
  /-- `GoogleTranslator(source='en', target=tgt).translate txt`
  (first argument the target code). -/
  translateFromEn : String → String → Except String String
  /-- Outcome of `self.model.generate_content` inside `chat_with_gemini`. -/
  geminiOutcome : Except String String
  /-- Outcome of the gTTS build/save inside `text_to_speech`. -/
  gttsOutcome : String → String → Except String String
  /-- Outcome of `play_audio file`. -/
  playOutcome : String → Except String Unit

/-- Observable effects of one `process_text_message` turn. -/
structure TurnResult where
  /-- Chat-display entries, in emission order. -/
  messages : List Message
  /-- Translator invocations, in call order. -/
  translateCalls : List TranslateCall
  /-- The prompt handed to `chat_with_gemini`, when that stage is reached. -/
  geminiPrompt : Option String
  /-- The local variable `response` (reply used by the rest of the turn). -/
  geminiReply : Option String
  /-- The `(text, lang)` pair handed to `text_to_speech`, when reached. -/
  ttsCall : Option (String × String)
  /-- The file handed to `play_audio`, when playback is attempted. -/
  played : Option String
  /-- Console `print` output of the turn. -/
  consoleLog : List String
deriving DecidableEq, Repr

/-- `MultilingualGUI.process_text_message` (`gui_app.py` lines 326-354).
`input_language i` / `output_language i` give the value of the shared
mutable lists `self.input_language` / `self.output_language` at read
point `i` of the turn: the turn reads `input_language[2]` at the inbound
translation check (read point 0), `output_language[2]` at the outbound
translation check (read point 1) and again at the text-to-speech call
(read point 2).  The surrounding `try/except` turns any raise into a
single error chat entry ending the turn.  Note that this coarser model
merges the two source reads of `self.output_language[2]` on lines 341
(the `!= 'en'` check) and 342 (the `GoogleTranslator(target=...)`
argument) into the single read point 1; see
`process_text_message_reads` for the model with one read point per
source expression. -/
def process_text_message (env : TurnEnv)
    (input_language output_language : Nat → List String)
    (message : String) : TurnResult :=
  let userMsg : Message := ⟨MsgType.user, message⟩
  let inCode : String := (input_language 0).getD 2 ""
  let inCalls : List TranslateCall :=
    if inCode ≠ "en" then [⟨message, "auto", "en"⟩] else []
  let inResult : Except String String :=
    if inCode ≠ "en" then env.translateToEn message else Except.ok message
  match inResult with
  | Except.error e =>
      ⟨[userMsg, ⟨MsgType.error, "Error processing message: " ++ e⟩],
       inCalls, none, none, none, none, []⟩
  | Except.ok message_english =>
    let gem := chat_with_gemini env.geminiOutcome
    let response := gem.1
    let outCode : String := (output_language 1).getD 2 ""
    let outCalls : List TranslateCall :=
      if outCode ≠ "en" then [⟨response, "en", outCode⟩] else []
    let outResult : Except String String :=
      if outCode ≠ "en" then env.translateFromEn outCode response
      else Except.ok response
    match outResult with
    | Except.error e =>
        ⟨[userMsg, ⟨MsgType.error, "Error processing message: " ++ e⟩],
         inCalls ++ outCalls, some message_english, some response, none, none,
         gem.2⟩
    | Except.ok translated_response =>
      let outCode2 : String := (output_language 2).getD 2 ""
      let tts := text_to_speech env.gttsOutcome translated_response outCode2
      match tts.1 with
      | none =>
          ⟨[userMsg, ⟨MsgType.assistant, translated_response⟩],
           inCalls ++ outCalls, some message_english, some response,
           some (translated_response, outCode2), none, gem.2 ++ tts.2⟩
      | some audio_file =>
        match env.playOutcome audio_file with
        | Except.ok _ =>
            ⟨[userMsg, ⟨MsgType.assistant, translated_response⟩],
             inCalls ++ outCalls, some message_english, some response,
             some (translated_response, outCode2), some audio_file,
             gem.2 ++ tts.2⟩
        | Except.error e =>
            ⟨[userMsg, ⟨MsgType.assistant, translated_response⟩,
              ⟨MsgType.error, "Error processing message: " ++ e⟩],
             inCalls ++ outCalls, some message_english, some response,
             some (translated_response, outCode2), some audio_file,
             gem.2 ++ tts.2⟩

/-- `MultilingualGUI.process_text_message` (`gui_app.py` lines 326-354)
with each read of the shared profile lists modelled as its own read
point, at the granularity of the source expressions:
`self.input_language[2]` at the inbound check (line 332) is read point 0
of `input_language`; `self.output_language[2]` at the outbound check
(line 341) is read point 1, at the `GoogleTranslator(target=...)`
argument (line 342) read point 2, and at the `text_to_speech` call
(line 349) read point 3 of `output_language`.  A profile update landing
between any two of these reads is thereby expressible — in particular
one landing between lines 341 and 342.  On schedules whose reads all
agree this coincides with `process_text_message`
(`process_text_message_reads_agrees`). -/
def process_text_message_reads (env : TurnEnv)
    (input_language output_language : Nat → List String)
    (message : String) : TurnResult :=
  let userMsg : Message := ⟨MsgType.user, message⟩
  let inCode : String := (input_language 0).getD 2 ""
  let inCalls : List TranslateCall :=
    if inCode ≠ "en" then [⟨message, "auto", "en"⟩] else []
  let inResult : Except String String :=
    if inCode ≠ "en" then env.translateToEn message else Except.ok message
  match inResult with
  | Except.error e =>
      ⟨[userMsg, ⟨MsgType.error, "Error processing message: " ++ e⟩],
       inCalls, none, none, none, none, []⟩
  | Except.ok message_english =>
    let gem := chat_with_gemini env.geminiOutcome
    let response := gem.1
    let outCodeCheck : String := (output_language 1).getD 2 ""
    let outCodeTarget : String := (output_language 2).getD 2 ""
    let outCalls : List TranslateCall :=
      if outCodeCheck ≠ "en" then [⟨response, "en", outCodeTarget⟩] else []
    let outResult : Except String String :=
      if outCodeCheck ≠ "en" then env.translateFromEn outCodeTarget response
      else Except.ok response
    match outResult with
    | Except.error e =>
        ⟨[userMsg, ⟨MsgType.error, "Error processing message: " ++ e⟩],
         inCalls ++ outCalls, some message_english, some response, none, none,
         gem.2⟩
    | Except.ok translated_response =>
      let outCodeTts : String := (output_language 3).getD 2 ""
      let tts := text_to_speech env.gttsOutcome translated_response outCodeTts
      match tts.1 with
      | none =>
          ⟨[userMsg, ⟨MsgType.assistant, translated_response⟩],
           inCalls ++ outCalls, some message_english, some response,
           some (translated_response, outCodeTts), none, gem.2 ++ tts.2⟩
      | some audio_file =>
        match env.playOutcome audio_file with
        | Except.ok _ =>
            ⟨[userMsg, ⟨MsgType.assistant, translated_response⟩],
             inCalls ++ outCalls, some message_english, some response,
             some (translated_response, outCodeTts), some audio_file,
             gem.2 ++ tts.2⟩
        | Except.error e =>
            ⟨[userMsg, ⟨MsgType.assistant, translated_response⟩,
              ⟨MsgType.error, "Error processing message: " ++ e⟩],
             inCalls ++ outCalls, some message_english, some response,
             some (translated_response, outCodeTts), some audio_file,
             gem.2 ++ tts.2⟩

/-- Oracles and availability flags for one turn of
`ImprovedMultilingualGUI.process_text_message` (`voice_assistant.py`). -/
structure VaEnv where
  gemini_available : Bool
  translator_available : Bool
  audio_playback_available : Bool
  translateToEn : String → Except String String
  translateFromEn : String → String → Except String String
  geminiOutcome : Except String String

/-- Observable effects of one `voice_assistant.py` text turn. -/
structure VaTurnResult where
  messages : List Message
  translateCalls : List TranslateCall
  geminiPrompt : Option String
  geminiReply : Option String
  /-- Text handed to the `play_response_audio` background thread. -/
  playRequest : Option String
  consoleLog : List String
deriving DecidableEq, Repr

/-- `ImprovedMultilingualGUI.process_text_message` (`voice_assistant.py`
lines 512-543).  Read points as in `process_text_message`: the input
profile is read at point 0, the output profile at point 1 for the
outbound translation check; the audio thread later reads the output
profile on its own and is only recorded as spawned here. -/
def va_process_text_message (env : VaEnv)
    (input_language output_language : Nat → List String)
    (message : String) : VaTurnResult :=
  let userMsg : Message := ⟨MsgType.user, message⟩
  if ¬ env.gemini_available then
    ⟨[userMsg, ⟨MsgType.error, "AI assistant not available"⟩],
     [], none, none, none, []⟩
  else
    let inCode : String := (input_language 0).getD 2 ""
    let inCalls : List TranslateCall :=
      if env.translator_available ∧ inCode ≠ "en"
      then [⟨message, "auto", "en"⟩] else []
    let inResult : Except String String :=
      if env.translator_available ∧ inCode ≠ "en"
      then env.translateToEn message else Except.ok message
    match inResult with
    | Except.error e =>
        ⟨[userMsg, ⟨MsgType.error, "Failed to process message: " ++ e⟩],
         inCalls, none, none, none, []⟩
    | Except.ok message_english =>
      let gem := chat_with_gemini env.geminiOutcome
      let response := gem.1
      let outCode : String := (output_language 1).getD 2 ""
      let outCalls : List TranslateCall :=
        if env.translator_available ∧ outCode ≠ "en"
        then [⟨response, "en", outCode⟩] else []
      let outResult : Except String String :=
        if env.translator_available ∧ outCode ≠ "en"
        then env.translateFromEn outCode response else Except.ok response
      match outResult with
      | Except.error e =>
          ⟨[userMsg, ⟨MsgType.error, "Failed to process message: " ++ e⟩],
           inCalls ++ outCalls, some message_english, some response, none,
           gem.2⟩
      | Except.ok response_translated =>
          ⟨[userMsg, ⟨MsgType.assistant, response_translated⟩],
           inCalls ++ outCalls, some message_english, some response,
           (if env.audio_playback_available then some response_translated
            else none),
           gem.2⟩

/-- The fixed stop-word list of `MultilingualGUI.voice_loop`
(`gui_app.py` line 389). -/
def stop_words : List String := ["stop", "exit", "quit", "goodbye"]

/-- Outcome of one microphone capture + recognition attempt.
`utterance t` models `recognize_google` returning `t`; `timeout` models
`sr.WaitTimeoutError`; `unintelligible` models `sr.UnknownValueError`;
`deviceError e` models any other exception (e.g. microphone
unavailable). -/
inductive CaptureResult where
  | utterance (text : String)
  | timeout
  | unintelligible
  | deviceError (msg : String)
deriving DecidableEq, Repr

/-- Effects of one iteration of `MultilingualGUI.voice_loop`. -/
structure StepResult where
  /-- `true` when the iteration executes `break`. -/
  breaksLoop : Bool
  /-- Utterance handed to `process_voice_message`, if any. -/
  processed : Option String
  messages : List Message
  /-- `true` when `stop_conversation` is scheduled via `root.after`. -/
  stopRequested : Bool
  /-- `true` when the iteration runs `time.sleep(1)`. -/
  sleptOneSecond : Bool
deriving DecidableEq, Repr

/-- One iteration of `MultilingualGUI.voice_loop` (`gui_app.py` lines
378-403), as a function of the capture outcome. -/
def voice_loop_step (c : CaptureResult) : StepResult :=
  match c with
  | CaptureResult.utterance user_text =>
      if pyLower user_text ∈ stop_words then
        ⟨true, none, [], true, false⟩
      else
        ⟨false, some user_text, [⟨MsgType.user, user_text⟩], false, false⟩
  | CaptureResult.timeout => ⟨false, none, [], false, false⟩
  | CaptureResult.unintelligible =>
      ⟨false, none, [⟨MsgType.error, "Could not understand audio"⟩], false,
       false⟩
  | CaptureResult.deviceError e =>
      ⟨false, none, [⟨MsgType.error, "Voice error: " ++ e⟩], false, true⟩

/-- Accumulated effects of a run of `MultilingualGUI.voice_loop` over a
finite trace of capture outcomes (the trace ends when
`conversation_active` is cleared externally). -/
structure LoopRun where
  processed : List String
  messages : List Message
  stopRequested : Bool
deriving DecidableEq, Repr

/-- `MultilingualGUI.voice_loop` run over a trace of capture outcomes:
each iteration is `voice_loop_step`; the loop ends early only when a
step executes `break`. -/
def voice_loop_run : List CaptureResult → LoopRun
  | [] => ⟨[], [], false⟩
  | c :: rest =>
    let s := voice_loop_step c
    if s.breaksLoop then
      ⟨s.processed.toList, s.messages, s.stopRequested⟩
    else
      let r := voice_loop_run rest
      ⟨s.processed.toList ++ r.processed, s.messages ++ r.messages,
       s.stopRequested || r.stopRequested⟩

/-- Effects of one call of `ImprovedMultilingualGUI.listen_for_voice`
(`voice_assistant.py` lines 586-609).  `ret` is the Python return value:
`some true` / `some false` for explicit `return True` / `return False`,
`none` for the implicit `return None` taken when the recognized text is
blank. -/
structure VaListenStep where
  ret : Option Bool
  processed : Option String
  messages : List Message
deriving DecidableEq, Repr

/-- `ImprovedMultilingualGUI.listen_for_voice` as a function of the
capture outcome. -/
def listen_for_voice (c : CaptureResult) : VaListenStep :=
  match c with
  | CaptureResult.utterance text =>
      if pyStrip text ≠ "" then ⟨some true, some text, []⟩
      else ⟨none, none, []⟩
  | CaptureResult.timeout => ⟨some true, none, []⟩
  | CaptureResult.unintelligible =>
      ⟨some true, none,
       [⟨MsgType.system, "Could not understand audio, please try again"⟩]⟩
  | CaptureResult.deviceError e =>
      ⟨some false, none,
       [⟨MsgType.error, "Voice recognition error: " ++ e⟩]⟩

/-- Python truthiness of `listen_for_voice`'s return value as tested by
`if self.listen_for_voice():`. -/
def va_truthy : Option Bool → Bool
  | some true => true
  | some false => false
  | none => false

/-- Final observable state of one activation of
`ImprovedMultilingualGUI.voice_conversation_loop`. -/
structure VaLoopRun where
  processed : List String
  messages : List Message
  /-- `conversation_active` after the `finally` block. -/
  finalActive : Bool
  /-- `true` when the status label reads Ready after the `finally` block. -/
  statusReady : Bool
deriving DecidableEq, Repr

/-- `ImprovedMultilingualGUI.voice_conversation_loop` (`voice_assistant.py`
lines 571-583) run over a trace of capture outcomes: it loops while
`listen_for_voice()` is truthy, breaks otherwise, and its `finally`
block always clears `conversation_active` and restores the Ready
status. -/
def voice_conversation_loop : List CaptureResult → VaLoopRun
  | [] => ⟨[], [], false, true⟩
  | c :: rest =>
    let s := listen_for_voice c
    if va_truthy s.ret then
      let r := voice_conversation_loop rest
      ⟨s.processed.toList ++ r.processed, s.messages ++ r.messages,
       r.finalActive, r.statusReady⟩
    else
      ⟨s.processed.toList, s.messages, false, true⟩

/-- Observable effects of one `start_conversation` call. -/
structure StartResult where
  conversation_active : Bool
  /-- `true` when a new background loop thread is started. -/
  spawnedLoop : Bool
  chatMessages : List Message
  errorDialog : Option (String × String)
  infoDialog : Option (String × String)
  warnDialog : Option (String × String)
deriving DecidableEq, Repr

/-- `MultilingualGUI.start_conversation` (`gui_app.py` lines 356-369):
`hasClient` models `hasattr(self, 'gemini_client')` and
`conversation_active` the flag's value on entry. -/
def start_conversation (hasClient conversation_active : Bool) : StartResult :=
  if ¬ hasClient then
    ⟨conversation_active, false, [],
     some ("Error", "Assistant not initialized. Please check your API key."),
     none, none⟩
  else if ¬ conversation_active then
    ⟨true, true,
     [⟨MsgType.system, "🎤 Voice conversation started. Speak now..."⟩],
     none, none, none⟩
  else
    ⟨conversation_active, false, [], none, none, none⟩

/-- `ImprovedMultilingualGUI.start_conversation` (`voice_assistant.py`
lines 554-569). -/
def va_start_conversation (voice_enabled conversation_active : Bool) :
    StartResult :=
  if ¬ voice_enabled then
    ⟨conversation_active, false, [], none, none,
     some ("Voice Unavailable",
       "Voice input is not available.\nPlease install PyAudio and speech_recognition.")⟩
  else if conversation_active then
    ⟨conversation_active, false, [], none,
     some ("Already Active", "Conversation is already active!"), none⟩
  else
    ⟨true, true, [], none, none, none⟩

/-- `MultilingualGUI.send_text_message` (`gui_app.py` lines 315-324;
identical logic in `voice_assistant.py` lines 501-510): returns the
message handed to the `process_text_message` thread, or `none` when no
turn is started. -/
def send_text_message (entry : String) : Option String :=
  let message := pyStrip entry
  if message ≠ "" ∧ message ≠ "Type message" then some message else none

/-- The turn started (if any) by typing `entry` and pressing Send. -/
def send_text_turn (env : TurnEnv)
    (input_language output_language : Nat → List String)
    (entry : String) : Option TurnResult :=
  (send_text_message entry).map (process_text_message env input_language output_language)

/-- Python truthiness of `os.environ.get(...)` as tested by
`if not os.environ.get('GEMINI_API_KEY')` in `main.py`. -/
def python_truthy : Option String → Bool
  | none => false
  | some s => s ≠ ""

/-- Body of the configuration-error dialog of `main.py`. -/
def config_error_text : String :=
  "GEMINI_API_KEY not found!\n\nPlease add your Google Gemini API key to your .env file:\nGEMINI_API_KEY=your_api_key_here\n\nGet your API key from: https://makersuite.google.com/"

/-- Observable effects of running `main()` in `main.py`. -/
structure MainResult where
  dialogs : List (String × String)
  /-- `true` when `MultilingualGUI` is constructed and `mainloop` entered. -/
  appStarted : Bool
  /-- `true` when an exception escapes `main` (both `KeyboardInterrupt`
  and `Exception` from `mainloop` are caught, so this is never set). -/
  uncaughtException : Bool
deriving DecidableEq, Repr

/-- `main` (`main.py` lines 9-39): `env` is the process environment after
`load_dotenv()`. -/
def mainEntry (env : String → Option String) : MainResult :=
  if python_truthy (env "GEMINI_API_KEY") then ⟨[], true, false⟩
  else ⟨[("Configuration Error", config_error_text)], false, false⟩

/-- The `["display name", recognition locale, translation code]` triple
for English, as in `setup_variables`. -/
def enProfile : List String := ["English", "en-US", "en"]

/-- Spanish profile triple, as produced by `update_input_language` from
`languages_dict`. -/
def esProfile : List String := ["Spanish", "es-ES", "es"]

/-- French profile triple. -/
def frProfile : List String := ["French", "fr-FR", "fr"]

/-- A turn environment in which every external service succeeds. -/
def okTurnEnv : TurnEnv :=
  ⟨fun s => Except.ok ("EN " ++ s),
   fun lang s => Except.ok (lang ++ " " ++ s),
   Except.ok "Hello!",
   fun _ _ => Except.ok "reply.mp3",
   fun _ => Except.ok ()⟩

/-- Like `okTurnEnv` but `generate_content` raises. -/
def failGeminiEnv : TurnEnv :=
  { okTurnEnv with geminiOutcome := Except.error "api quota exceeded" }

/-- Like `okTurnEnv` but the gTTS build/save raises. -/
def failTtsEnv : TurnEnv :=
  { okTurnEnv with gttsOutcome := fun _ _ => Except.error "gtts unavailable" }

/-- A `voice_assistant.py` environment with every dependency available
and every service succeeding. -/
def vaOkEnv : VaEnv :=
  ⟨true, true, true,
   fun s => Except.ok ("EN " ++ s),
   fun lang s => Except.ok (lang ++ " " ++ s),
   Except.ok "Hello!"⟩

/-- Output-profile read schedule of a run in which the output language is
English when the turn starts and is updated to French before the turn's
outbound-translation read point. -/
def c9OutSched : Nat → List String := fun t => if t = 0 then enProfile else frProfile

/-- Output-profile read schedule of a run in which the output language is
French when the outbound `!= 'en'` check runs (line 341) and has been
updated to English by the time the `GoogleTranslator(target=...)`
argument is read (line 342). -/
def c9RaceSched : Nat → List String := fun t => if t ≤ 1 then frProfile else enProfile

/-- C2: the inference call never propagates an exception: whenever a turn
reaches the inference stage it obtains some reply, and when the
underlying `generate_content` call fails the reply is the fixed fallback
string, so the turn always completes with reply text. -/
theorem c2_inference_fallback (env : TurnEnv)
    (inL outL : Nat → List String) (msg : String) :
    ((process_text_message env inL outL msg).geminiPrompt.isSome →
      (process_text_message env inL outL msg).geminiReply.isSome) ∧
    (∀ e, env.geminiOutcome = Except.error e →
      (process_text_message env inL outL msg).geminiPrompt.isSome →
      (process_text_message env inL outL msg).geminiReply =
        some "I'm sorry, I couldn't process that request.") := by
  simp only [process_text_message]
  constructor
  · intro h
    split at h <;> simp_all <;> split <;> simp_all <;> split <;> simp_all <;>
      split <;> simp_all
  · intro e he h
    split at h <;>
      simp_all [chat_with_gemini] <;> split <;> simp_all <;> split <;>
      simp_all <;> split <;> simp_all

/-- Witness for `c2_inference_fallback` at a failing inference oracle. -/
theorem c2_inference_fallback_witness :
    (process_text_message failGeminiEnv (fun _ => enProfile)
        (fun _ => enProfile) "hi").geminiReply =
      some "I'm sorry, I couldn't process that request." :=
  (c2_inference_fallback failGeminiEnv (fun _ => enProfile)
    (fun _ => enProfile) "hi").2 "api quota exceeded" rfl (by decide)

/-- C3: when the input profile's translation code is `"en"`, both turn
pipelines skip the inbound translation (no `source='auto'` translator
call is made) and hand the raw text verbatim to the inference stage. -/
theorem c3_english_input_verbatim (env : TurnEnv) (venv : VaEnv)
    (inL outL : Nat → List String) (msg : String)
    (h : (inL 0).getD 2 "" = "en") :
    ((process_text_message env inL outL msg).geminiPrompt = some msg ∧
     ∀ c ∈ (process_text_message env inL outL msg).translateCalls,
       c.source ≠ "auto") ∧
    (venv.gemini_available = true →
     (va_process_text_message venv inL outL msg).geminiPrompt = some msg ∧
     ∀ c ∈ (va_process_text_message venv inL outL msg).translateCalls,
       c.source ≠ "auto") := by
  refine ⟨⟨?_, ?_⟩, fun hg => ⟨?_, ?_⟩⟩ <;>
  · simp [process_text_message, va_process_text_message, h, *]
    repeat' split
    all_goals simp_all

/-- Witness for `c3_english_input_verbatim` with English input and French
output. -/
theorem c3_english_input_verbatim_witness :
    (process_text_message okTurnEnv (fun _ => enProfile)
        (fun _ => frProfile) "Hello").geminiPrompt = some "Hello" :=
  (c3_english_input_verbatim okTurnEnv vaOkEnv (fun _ => enProfile)
    (fun _ => frProfile) "Hello" (by decide)).1.1

/-- C4: when the output profile's translation code is `"en"`, both turn
pipelines deliver the inference reply as the assistant message unchanged
(the outbound translation is skipped); and, for any input at all,
neither pipeline ever invokes the no-op translation
`translate(x, source="en", target="en")`. -/
theorem c4_english_output_passthrough (env : TurnEnv) (venv : VaEnv)
    (inL outL : Nat → List String) (msg : String) :
    ((outL 1).getD 2 "" = "en" →
      (∀ r, (⟨MsgType.assistant, r⟩ : Message) ∈
          (process_text_message env inL outL msg).messages →
        r = (chat_with_gemini env.geminiOutcome).1) ∧
      (∀ r, (⟨MsgType.assistant, r⟩ : Message) ∈
          (va_process_text_message venv inL outL msg).messages →
        r = (chat_with_gemini venv.geminiOutcome).1)) ∧
    (∀ c ∈ (process_text_message env inL outL msg).translateCalls,
      ¬ (c.source = "en" ∧ c.target = "en")) ∧
    (∀ c ∈ (va_process_text_message venv inL outL msg).translateCalls,
      ¬ (c.source = "en" ∧ c.target = "en")) := by
  refine ⟨fun h => ⟨?_, ?_⟩, ?_, ?_⟩ <;>
  · simp [process_text_message, va_process_text_message, *]
    repeat' split
    all_goals simp_all

/-- Witness for `c4_english_output_passthrough`: with Spanish input and
English output the assistant message is the untranslated reply. -/
theorem c4_english_output_passthrough_witness :
    ∀ r, (⟨MsgType.assistant, r⟩ : Message) ∈
        (process_text_message okTurnEnv (fun _ => esProfile)
          (fun _ => enProfile) "Hola").messages →
      r = (chat_with_gemini okTurnEnv.geminiOutcome).1 :=
  ((c4_english_output_passthrough okTurnEnv vaOkEnv (fun _ => esProfile)
    (fun _ => enProfile) "Hola").1 (by decide)).1

/-- C6: when the turn reaches the speech-synthesis stage and the gTTS
call fails, the turn still completes for text purposes: the chat log is
exactly the user message followed by the assistant message, nothing is
played, and the failure is surfaced as a console warning rather than
aborting the turn. -/
theorem c6_tts_failure_degradation (env : TurnEnv)
    (inL outL : Nat → List String) (msg t l e : String)
    (hc : (process_text_message env inL outL msg).ttsCall = some (t, l))
    (he : env.gttsOutcome t l = Except.error e) :
    (process_text_message env inL outL msg).messages =
      [⟨MsgType.user, msg⟩, ⟨MsgType.assistant, t⟩] ∧
    (process_text_message env inL outL msg).played = none ∧
    ("Error generating speech: " ++ e) ∈
      (process_text_message env inL outL msg).consoleLog := by
  simp only [process_text_message] at hc ⊢
  split at hc
  · exact absurd hc (by simp)
  · split at hc
    · exact absurd hc (by simp)
    · split at hc
      · simp_all [text_to_speech]
      · split at hc <;> simp_all [text_to_speech]

/-- Witness for `c6_tts_failure_degradation` at a failing gTTS oracle. -/
theorem c6_tts_failure_degradation_witness :
    (process_text_message failTtsEnv (fun _ => enProfile)
        (fun _ => enProfile) "hi").played = none :=
  (c6_tts_failure_degradation failTtsEnv (fun _ => enProfile)
    (fun _ => enProfile) "hi" "Hello!" "en" "gtts unavailable"
    (by decide) rfl).2.1

/-- C9 counterexample: the claim that an in-flight turn completes with
the profile pair captured at its start fails on the code: with Spanish
input and an output profile updated from English to French while the
turn is in flight, the turn's outcome differs from the outcome under the
start-of-turn snapshot (the reply is translated to French even though
the output profile was English when the turn started). -/
theorem c9_claim_counterexample :
    process_text_message okTurnEnv (fun _ => esProfile) c9OutSched "Hola" ≠
      process_text_message okTurnEnv (fun _ => esProfile)
        (fun _ => c9OutSched 0) "Hola" := by decide

/-- On read schedules whose per-point values coincide, the
per-expression-read model agrees with the coarser turn model: both
definitions embed the same source lines and differ only in how many
distinct reads of `self.output_language[2]` they expose. -/
theorem process_text_message_reads_agrees (env : TurnEnv)
    (p q : List String) (msg : String) :
    process_text_message_reads env (fun _ => p) (fun _ => q) msg =
      process_text_message env (fun _ => p) (fun _ => q) msg := rfl

/-- C9 amended: the turn pipeline does not snapshot the profiles at turn
start; its outcome is determined by the values of the shared profile
lists at its four read points — the input profile at the
inbound-translation check, the output profile at the
outbound-translation check, at the translator-target argument, and at
the synthesis call.  An update can land between any two of these reads:
in particular, an update from a non-English output code to `"en"`
landing between the outbound check and the target-argument read makes
the pipeline invoke the no-op translation
`translate(source="en", target="en")`.  Each profile update is a
whole-list replacement, so each individual read is itself untorn. -/
theorem c9_profile_read_points :
    (∀ (env : TurnEnv) (msg : String)
        (inL inL2 outL outL2 : Nat → List String),
      inL 0 = inL2 0 → outL 1 = outL2 1 → outL 2 = outL2 2 →
      outL 3 = outL2 3 →
      process_text_message_reads env inL outL msg =
        process_text_message_reads env inL2 outL2 msg) ∧
    (process_text_message_reads okTurnEnv (fun _ => esProfile) c9RaceSched
        "Hola").translateCalls =
      [⟨"Hola", "auto", "en"⟩, ⟨"Hello!", "en", "en"⟩] := by
  constructor
  · intro env msg inL inL2 outL outL2 h0 h1 h2 h3
    simp only [process_text_message_reads, h0, h1, h2, h3]
  · decide

/-- Witness for `c9_profile_read_points` at concrete schedules agreeing
on the four read points. -/
theorem c9_profile_read_points_witness :
    process_text_message_reads okTurnEnv (fun _ => esProfile) c9RaceSched
        "Hola" =
      process_text_message_reads okTurnEnv
        (fun t => if t = 0 then esProfile else enProfile)
        (fun t => if t = 0 then enProfile else c9RaceSched t) "Hola" :=
  c9_profile_read_points.1 okTurnEnv "Hola" (fun _ => esProfile)
    (fun t => if t = 0 then esProfile else enProfile) c9RaceSched
    (fun t => if t = 0 then enProfile else c9RaceSched t)
    (by decide) (by decide) (by decide) (by decide)

/-- C1 counterexample: the claim that stop-word matching happens after
trimming fails on the code: the utterance `" stop"` trims and lowercases
to the stop word `"stop"`, yet `voice_loop_step` neither breaks the loop
nor requests a stop, and the utterance is handed on to
`process_voice_message`. -/
theorem c1_claim_counterexample :
    pyLower (pyStrip " stop") ∈ stop_words ∧
    voice_loop_run [CaptureResult.utterance " stop"] =
      ⟨[" stop"], [⟨MsgType.user, " stop"⟩], false⟩ := by decide

/-- C1 amended: in `gui_app.py`'s `voice_loop` the conversation stops
exactly when the lowercased utterance — without any trimming — equals
one of `"stop"`, `"exit"`, `"quit"`, `"goodbye"` (substring occurrence
is insufficient), and such an utterance is not handed on for
translation or inference; `voice_assistant.py`'s `listen_for_voice`
performs no stop-word detection at all: every utterance whose trimmed
text is non-blank, including `"stop"`, is processed as an ordinary
message. -/
theorem c1_stop_word_detection (t : String) (rest : List CaptureResult) :
    (pyLower t ∈ stop_words →
      voice_loop_run (CaptureResult.utterance t :: rest) = ⟨[], [], true⟩) ∧
    (pyLower t ∉ stop_words →
      voice_loop_run (CaptureResult.utterance t :: rest) =
        ⟨t :: (voice_loop_run rest).processed,
         ⟨MsgType.user, t⟩ :: (voice_loop_run rest).messages,
         (voice_loop_run rest).stopRequested⟩) ∧
    (voice_conversation_loop (CaptureResult.utterance t :: rest) =
      if pyStrip t ≠ "" then
        ⟨t :: (voice_conversation_loop rest).processed,
         (voice_conversation_loop rest).messages,
         (voice_conversation_loop rest).finalActive,
         (voice_conversation_loop rest).statusReady⟩
      else ⟨[], [], false, true⟩) := by
  refine ⟨fun h => ?_, fun h => ?_, ?_⟩
  · simp [voice_loop_run, voice_loop_step, h]
  · simp [voice_loop_run, voice_loop_step, h]
  · by_cases h : pyStrip t ≠ "" <;>
      simp [voice_conversation_loop, listen_for_voice, va_truthy, h]

/-- Witness for `c1_stop_word_detection`: the utterance `"QUIT"` stops
the loop at once, unprocessed, with a pending event ignored. -/
theorem c1_stop_word_detection_witness :
    voice_loop_run [CaptureResult.utterance "QUIT", CaptureResult.timeout] =
      ⟨[], [], true⟩ :=
  (c1_stop_word_detection "QUIT" [CaptureResult.timeout]).1 (by decide)

/-- C5 counterexample: the claim that a genuine device/API error
terminates `gui_app.py`'s voice loop fails on the code: after a device
error the loop keeps running — a following utterance is still processed
— and `stop_conversation` is never requested, so `conversation_active`
is not reset. -/
theorem c5_claim_counterexample :
    (voice_loop_run [CaptureResult.deviceError "microphone unavailable",
        CaptureResult.utterance "hello"]).processed = ["hello"] ∧
    (voice_loop_run [CaptureResult.deviceError "microphone unavailable",
        CaptureResult.utterance "hello"]).stopRequested = false := by decide

/-- C5 amended: capture timeouts and unintelligible audio never
terminate either conversation loop and never request a stop (timeouts
are silent, unintelligible audio adds one soft notice); a device/API
error in `gui_app.py`'s `voice_loop` is reported on each occurrence and
the loop continues, while in `voice_assistant.py`'s
`voice_conversation_loop` it ends the activation immediately with a
single error report, after which `conversation_active` is false and the
status label reads Ready. -/
theorem c5_loop_error_policy (e : String) (rest : List CaptureResult) :
    (voice_loop_run (CaptureResult.timeout :: rest) = voice_loop_run rest) ∧
    (voice_loop_run (CaptureResult.unintelligible :: rest) =
      ⟨(voice_loop_run rest).processed,
       ⟨MsgType.error, "Could not understand audio"⟩ ::
         (voice_loop_run rest).messages,
       (voice_loop_run rest).stopRequested⟩) ∧
    (voice_loop_run (CaptureResult.deviceError e :: rest) =
      ⟨(voice_loop_run rest).processed,
       ⟨MsgType.error, "Voice error: " ++ e⟩ ::
         (voice_loop_run rest).messages,
       (voice_loop_run rest).stopRequested⟩) ∧
    (voice_conversation_loop (CaptureResult.timeout :: rest) =
      voice_conversation_loop rest) ∧
    (voice_conversation_loop (CaptureResult.unintelligible :: rest) =
      ⟨(voice_conversation_loop rest).processed,
       ⟨MsgType.system, "Could not understand audio, please try again"⟩ ::
         (voice_conversation_loop rest).messages,
       (voice_conversation_loop rest).finalActive,
       (voice_conversation_loop rest).statusReady⟩) ∧
    (voice_conversation_loop (CaptureResult.deviceError e :: rest) =
      ⟨[], [⟨MsgType.error, "Voice recognition error: " ++ e⟩],
       false, true⟩) := by
  refine ⟨?_, ?_, ?_, ?_, ?_, ?_⟩ <;>
    simp [voice_loop_run, voice_loop_step, voice_conversation_loop,
      listen_for_voice, va_truthy]

/-- C7 counterexample: the claim that a duplicate start request is
rejected with a user-visible "already active" notice fails on the code:
`gui_app.py`'s `start_conversation`, called while a conversation is
active (client initialized), produces no dialog and no chat message of
any kind — the request is ignored silently. -/
theorem c7_claim_counterexample :
    (start_conversation true true).spawnedLoop = false ∧
    (start_conversation true true).conversation_active = true ∧
    (start_conversation true true).chatMessages = [] ∧
    (start_conversation true true).errorDialog = none ∧
    (start_conversation true true).infoDialog = none ∧
    (start_conversation true true).warnDialog = none := by decide

/-- C7 amended: a start request issued while a conversation is already
active never spawns a second background loop and leaves
`conversation_active` unchanged; in `gui_app.py` it is ignored silently
(no notice of any kind), while in `voice_assistant.py` it shows an
"Already Active" info dialog. -/
theorem c7_duplicate_start :
    (∀ hasClient : Bool,
      (start_conversation hasClient true).spawnedLoop = false ∧
      (start_conversation hasClient true).conversation_active = true ∧
      (start_conversation hasClient true).infoDialog = none ∧
      (start_conversation hasClient true).chatMessages = []) ∧
    (va_start_conversation true true =
      ⟨true, false, [], none,
       some ("Already Active", "Conversation is already active!"),
       none⟩) := by decide

/-- C8: when `GEMINI_API_KEY` is missing from the process environment,
`main` shows exactly one blocking configuration-error dialog, never
constructs the application window or enters the conversation loop, and
returns normally without an uncaught exception. -/
theorem c8_missing_api_key (env : String → Option String)
    (h : env "GEMINI_API_KEY" = none) :
    mainEntry env =
      ⟨[("Configuration Error", config_error_text)], false, false⟩ := by
  simp [mainEntry, python_truthy, h]

/-- Witness for `c8_missing_api_key` at the empty environment. -/
theorem c8_missing_api_key_witness :
    mainEntry (fun _ => none) =
      ⟨[("Configuration Error", config_error_text)], false, false⟩ :=
  c8_missing_api_key (fun _ => none) rfl

/-- Every turn of `process_text_message` begins by emitting the user
message. -/
theorem process_user_message_first (env : TurnEnv)
    (inL outL : Nat → List String) (msg : String) :
    (⟨MsgType.user, msg⟩ : Message) ∈
      (process_text_message env inL outL msg).messages := by
  simp only [process_text_message]
  repeat' split
  all_goals simp

/-- C10: typing `entry` and pressing Send starts a turn exactly when the
stripped entry is non-empty and differs from the placeholder
`"Type message"`; a started turn emits the user message, and a rejected
entry starts no turn at all (so nothing reaches translation or
inference). -/
theorem c10_send_text_gate (env : TurnEnv)
    (inL outL : Nat → List String) (entry : String) :
    (send_text_turn env inL outL entry ≠ none ↔
      (pyStrip entry ≠ "" ∧ pyStrip entry ≠ "Type message")) ∧
    (∀ r, send_text_turn env inL outL entry = some r →
      (⟨MsgType.user, pyStrip entry⟩ : Message) ∈ r.messages) := by
  constructor
  · by_cases h : pyStrip entry ≠ "" ∧ pyStrip entry ≠ "Type message" <;>
      simp [send_text_turn, send_text_message, h]
  · intro r hr
    simp only [send_text_turn, send_text_message] at hr
    split at hr
    · rw [Option.map_some'] at hr
      cases hr
      exact process_user_message_first env inL outL (pyStrip entry)
    · simp at hr

/-- Witness for `c10_send_text_gate`: a padded non-placeholder entry
starts a turn. -/
theorem c10_send_text_gate_witness :
    send_text_turn okTurnEnv (fun _ => enProfile) (fun _ => enProfile)
      "  hi  " ≠ none :=
  (c10_send_text_gate okTurnEnv (fun _ => enProfile) (fun _ => enProfile)
    "  hi  ").1.mpr (by decide)

end MCA
